import Mathlib

/-! Verification development for the HTTP transport abstraction and the
image-upload facade of `linebot/http_client.py`.

Modelling conventions:
* Python byte strings are `List Nat` (one `Nat` per byte), text is `String`.
* The response object of the underlying `requests` library is the record
  `UnderlyingResponse`; its `json()` method is modelled by applying the
  concrete parser `parseJson` to the body text.
* Network I/O is modelled by environments (`Network`, `MediaEnv`) supplying
  the data the remote side would answer with; each facade operation also
  returns the list of requests it issued (an `Event` trace), so that claims
  of the form "no further request is issued" are statable.
* The filesystem is an association list from paths to byte contents.
* Timeout values (Python floats or float pairs) are modelled over `Nat`;
  only their identity matters to the claims, never their arithmetic.
-/

namespace LineBot

/-- Timeout values: a scalar or a (connect, read) pair, as accepted by
`HttpClient.__init__` / `get` / `post`. -/
inductive Timeout where
  | scalar (v : Nat)
  | pair (connect read : Nat)
  deriving DecidableEq, Repr

/-- Default timeout of the client: `HttpClient.DEFAULT_TIMEOUT = 5`. -/
def DEFAULT_TIMEOUT : Timeout := .scalar 5

/-- Response object of the underlying `requests` library: the values the
completed transfer produced.  (`text` is the decoded form of `content`; the
decoding itself happens inside the external library.) -/
structure UnderlyingResponse where
  status_code : Nat
  headers : List (String × String)
  text : String
  content : List Nat
  deriving DecidableEq, Repr

/-- Wrapper `RequestsHttpResponse.__init__`: stores the wrapped `requests`
response (`self.response = response`). -/
structure RequestsHttpResponse where
  response : UnderlyingResponse
  deriving DecidableEq, Repr

/-- Accessor `status_code`: `return self.response.status_code`. -/
def RequestsHttpResponse.status_code (r : RequestsHttpResponse) : Nat :=
  r.response.status_code

/-- Accessor `headers`: `return self.response.headers`. -/
def RequestsHttpResponse.headers (r : RequestsHttpResponse) : List (String × String) :=
  r.response.headers

/-- Accessor `text`: `return self.response.text`. -/
def RequestsHttpResponse.text (r : RequestsHttpResponse) : String :=
  r.response.text

/-- Accessor `content`: `return self.response.content`. -/
def RequestsHttpResponse.content (r : RequestsHttpResponse) : List Nat :=
  r.response.content

/-- Client `RequestsHttpClient.__init__`: stores the default timeout
(`self.timeout = timeout`). -/
structure RequestsHttpClient where
  timeout : Timeout
  deriving DecidableEq, Repr

/-- Network environment: what the remote side answers to a concrete
`requests.get` or `requests.post` call issued by the concrete transport.
The effective timeout is part of the call, so a theorem can observe which
timeout a given call used. -/
structure Network where
  getResponse : (url : String) → (headers params : List (String × String)) →
    (stream : Bool) → (timeout : Timeout) → UnderlyingResponse
  postResponse : (url : String) → (headers : List (String × String)) →
    (data : List (String × String)) → (timeout : Timeout) → UnderlyingResponse

/-- Method `RequestsHttpClient.get`: resolves `timeout` to the instance
default when no explicit argument is given (`if timeout is None: timeout =
self.timeout`), performs `requests.get`, and wraps the result.  The instance
is returned unchanged: the method body contains no assignment to `self`. -/
def RequestsHttpClient.get (c : RequestsHttpClient) (net : Network)
    (url : String) (headers params : List (String × String))
    (stream : Bool) (timeout : Option Timeout) :
    RequestsHttpResponse × RequestsHttpClient :=
  let t := match timeout with
    | none => c.timeout
    | some t => t
  (⟨net.getResponse url headers params stream t⟩, c)

/-- Method `RequestsHttpClient.post`: same timeout resolution as `get`, then
`requests.post`, then wrap.  The instance is returned unchanged. -/
def RequestsHttpClient.post (c : RequestsHttpClient) (net : Network)
    (url : String) (headers data : List (String × String))
    (timeout : Option Timeout) :
    RequestsHttpResponse × RequestsHttpClient :=
  let t := match timeout with
    | none => c.timeout
    | some t => t
  (⟨net.postResponse url headers data t⟩, c)

/-! JSON values and a concrete executable parser, modelling what
`requests`' `response.json()` (i.e. `json.loads` on the body) does: a
well-formed body parses to a structured value, a malformed body raises. -/

/-- Structured (JSON) values a response body can parse to. -/
inductive JsonValue where
  | null
  | bool (b : Bool)
  | num (n : Int)
  | str (s : String)
  | arr (elems : List JsonValue)
  | obj (fields : List (String × JsonValue))
  deriving Repr

/-- Whitespace skipping for the JSON parser. -/
def skipWs : List Char → List Char
  | [] => []
  | c :: cs => if c = ' ' ∨ c = '\n' ∨ c = '\t' ∨ c = '\r' then skipWs cs else c :: cs

/-- Consume an expected literal run of characters, or fail. -/
def dropLit : List Char → List Char → Option (List Char)
  | [], cs => some cs
  | _, [] => none
  | x :: xs, y :: ys => if x = y then dropLit xs ys else none

/-- Span of leading decimal digits. -/
def digitSpan : List Char → List Char × List Char
  | [] => ([], [])
  | c :: cs =>
    if c.isDigit then
      let (d, r) := digitSpan cs
      (c :: d, r)
    else ([], c :: cs)

/-- Numeric value of a run of decimal digits. -/
def digitsToNat (ds : List Char) : Nat :=
  ds.foldl (fun a c => a * 10 + (c.toNat - 48)) 0

/-- String-body parsing after the opening quote: returns the characters up
to the closing quote (with `\x5cc` unescaped to `c`) and the rest. -/
def parseStrBody (fuel : Nat) (cs : List Char) : Option (List Char × List Char) :=
  match fuel, cs with
  | 0, _ => none
  | _, [] => none
  | fuel + 1, c :: cs =>
    if c = '"' then some ([], cs)
    else if c = '\\' then
      match cs with
      | [] => none
      | e :: cs2 =>
        match parseStrBody fuel cs2 with
        | none => none
        | some (s, rest) => some (e :: s, rest)
    else
      match parseStrBody fuel cs with
      | none => none
      | some (s, rest) => some (c :: s, rest)

mutual

/-- Parse one JSON value from the front of the input. -/
def parseValue : Nat → List Char → Except String (JsonValue × List Char)
  | 0, _ => .error "fuel exhausted"
  | fuel + 1, cs =>
    match skipWs cs with
    | [] => .error "unexpected end of input"
    | c :: rest =>
      if c = '"' then
        match parseStrBody (rest.length + 1) rest with
        | none => .error "unterminated string"
        | some (s, rest2) => .ok (.str (String.mk s), rest2)
      else if c = '[' then
        match skipWs rest with
        | ']' :: rest2 => .ok (.arr [], rest2)
        | _ =>
          match parseElems fuel (skipWs rest) [] with
          | .error e => .error e
          | .ok (vs, rest2) => .ok (.arr vs, rest2)
      else if c = '{' then
        match skipWs rest with
        | '}' :: rest2 => .ok (.obj [], rest2)
        | _ =>
          match parseMembers fuel (skipWs rest) [] with
          | .error e => .error e
          | .ok (kvs, rest2) => .ok (.obj kvs, rest2)
      else if c = 'n' then
        match dropLit ['u', 'l', 'l'] rest with
        | some rest2 => .ok (.null, rest2)
        | none => .error "invalid literal"
      else if c = 't' then
        match dropLit ['r', 'u', 'e'] rest with
        | some rest2 => .ok (.bool true, rest2)
        | none => .error "invalid literal"
      else if c = 'f' then
        match dropLit ['a', 'l', 's', 'e'] rest with
        | some rest2 => .ok (.bool false, rest2)
        | none => .error "invalid literal"
      else if c = '-' then
        match digitSpan rest with
        | ([], _) => .error "invalid number"
        | (ds, rest2) => .ok (.num (-(digitsToNat ds : Int)), rest2)
      else if c.isDigit then
        match digitSpan (c :: rest) with
        | (ds, rest2) => .ok (.num (digitsToNat ds : Int), rest2)
      else .error "unexpected character"

/-- Parse the remaining elements of a non-empty JSON array, accumulator in
reverse order. -/
def parseElems : Nat → List Char → List JsonValue → Except String (List JsonValue × List Char)
  | 0, _, _ => .error "fuel exhausted"
  | fuel + 1, cs, acc =>
    match parseValue fuel cs with
    | .error e => .error e
    | .ok (v, rest) =>
      match skipWs rest with
      | ',' :: rest2 => parseElems fuel rest2 (v :: acc)
      | ']' :: rest2 => .ok ((v :: acc).reverse, rest2)
      | _ => .error "expected comma or bracket"

/-- Parse the remaining members of a non-empty JSON object, accumulator in
reverse order. -/
def parseMembers : Nat → List Char → List (String × JsonValue) →
    Except String (List (String × JsonValue) × List Char)
  | 0, _, _ => .error "fuel exhausted"
  | fuel + 1, cs, acc =>
    match skipWs cs with
    | '"' :: rest =>
      match parseStrBody (rest.length + 1) rest with
      | none => .error "unterminated string"
      | some (k, rest2) =>
        match skipWs rest2 with
        | ':' :: rest3 =>
          match parseValue fuel rest3 with
          | .error e => .error e
          | .ok (v, rest4) =>
            match skipWs rest4 with
            | ',' :: rest5 => parseMembers fuel rest5 ((String.mk k, v) :: acc)
            | '}' :: rest5 => .ok (((String.mk k, v) :: acc).reverse, rest5)
            | _ => .error "expected comma or brace"
        | _ => .error "expected colon"
    | _ => .error "expected string key"

end

/-- Top-level JSON parse of a whole body, as `json.loads` does: one value,
nothing but whitespace after it. -/
def parseJson (s : String) : Except String JsonValue :=
  match parseValue (2 * s.data.length + 8) s.data with
  | .error e => .error e
  | .ok (v, rest) =>
    match skipWs rest with
    | [] => .ok v
    | _ => .error "extra data"

/-- Method `json()` of the underlying `requests` response: parse the body as
structured data, failing on a malformed body. -/
def UnderlyingResponse.json (r : UnderlyingResponse) : Except String JsonValue :=
  parseJson r.text

/-- Accessor `json` of the wrapper: `return self.response.json()` — a bare
delegation with no exception handling around it, so a parse failure surfaces
to the caller at access time. -/
def RequestsHttpResponse.json (r : RequestsHttpResponse) : Except String JsonValue :=
  r.response.json

/-- Chunking worker for `iter_content`: successive `take`/`drop` of at most
`n` bytes, driven by fuel. -/
def chunksOfAux : Nat → Nat → List Nat → List (List Nat)
  | 0, _, _ => []
  | _, _, [] => []
  | fuel + 1, n, l => l.take n :: chunksOfAux fuel n (l.drop n)

/-- Method `iter_content(chunk_size, decode_unicode)`: the body as a finite
sequence of chunks of at most `chunk_size` bytes, in transfer order
(`return self.response.iter_content(...)`). -/
def RequestsHttpResponse.iter_content (r : RequestsHttpResponse)
    (chunk_size : Nat) (_decode_unicode : Bool) : List (List Nat) :=
  chunksOfAux (r.response.content.length + 1) chunk_size r.response.content

/-! Accessor evaluation as a state machine, to state that evaluating any
sequence of accessors never mutates the response's observable state: each
Python property body is a single `return` of a read, with no assignment. -/

/-- Accessors a caller can evaluate on a `RequestsHttpResponse`. -/
inductive Accessor where
  | status_code
  | headers
  | text
  | content
  | json
  | iter_content (chunk_size : Nat) (decode_unicode : Bool)

/-- Value produced by evaluating one accessor. -/
inductive AccessValue where
  | nat (n : Nat)
  | hdrs (h : List (String × String))
  | str (s : String)
  | bytes (b : List Nat)
  | json (j : Except String JsonValue)
  | chunks (c : List (List Nat))

/-- Evaluate one accessor: returns its value and the (post-)state of the
response object.  Each branch embeds the corresponding property body, which
reads `self.response` and assigns nothing. -/
def runAccessor (a : Accessor) (r : RequestsHttpResponse) :
    AccessValue × RequestsHttpResponse :=
  match a with
  | .status_code => (.nat r.status_code, r)
  | .headers => (.hdrs r.headers, r)
  | .text => (.str r.text, r)
  | .content => (.bytes r.content, r)
  | .json => (.json r.json, r)
  | .iter_content n d => (.chunks (r.iter_content n d), r)

/-- Evaluate a sequence of accessors left to right, threading the response
state, collecting the values. -/
def runAccessors : List Accessor → RequestsHttpResponse →
    List AccessValue × RequestsHttpResponse
  | [], r => ([], r)
  | a :: as_, r =>
    let (v, r2) := runAccessor a r
    let (vs, r3) := runAccessors as_ r2
    (v :: vs, r3)

/-! The image facade: `sendImage` and `sendImageWithURL`, with the external
collaborators (`self._client`, `self._session`, the remote URL, the
filesystem) supplied by an environment, and the requests each operation
issues recorded as an event trace. -/

/-- Errors the facade can raise.  `uploadFailed` is
`Exception('Upload image failure.')`, `downloadFailed` is
`Exception('Download image failure.')`, `fileNotFound` is the `IOError`
that `open(path, 'rb')` raises on a missing file. -/
inductive Err where
  | uploadFailed
  | downloadFailed
  | fileNotFound (path : String)
  deriving DecidableEq, Repr

/-- Python return values of the two facade operations: `None` (a bare fall
through) or a boolean. -/
inductive PyVal where
  | none
  | bool (b : Bool)
  deriving DecidableEq, Repr

/-- Thrift `Message` record (imported from `LineThrift.ttypes`), with
exactly the fields `sendImage` sets: `Message(to=to_, text=None,
contentType=1)`, then `contentMetadata = None`, `contentPreview = None`. -/
structure Message where
  «to» : Option String
  text : Option String
  contentType : Nat
  contentMetadata : Option (List (String × String))
  contentPreview : Option (List Nat)
  deriving DecidableEq, Repr

/-- Placeholder content message constructed at the top of `sendImage`. -/
def placeholderMessage (to_ : String) : Message :=
  { «to» := some to_, text := none, contentType := 1,
    contentMetadata := none, contentPreview := none }

/-- Fields of the `params` dict of `sendImage`, serialised by `json.dumps`
into the `params` form field of the multipart POST. -/
structure UploadParams where
  name : String
  oid : String
  size : Nat
  type : String
  ver : String
  deriving DecidableEq, Repr

/-- Requests the facade can issue, in the order it issues them. -/
inductive Event where
  | sendMessage (seq : Nat) (msg : Message)
  | postContent (url : String) (params : UploadParams) (file : List Nat)
  | httpGet (url : String) (stream : Bool)
  deriving DecidableEq, Repr

/-- Media upload endpoint hard-coded in `sendImage`. -/
def mediaUploadUrl : String := "https://obs-sg.line-apps.com/talk/m/upload.nhn"

/-- Environment of the facade operations: the id `self._client.sendMessage`
answers for the placeholder message, the status code `self._session.post`
answers at the media endpoint, the status and raw body `requests.get`
answers for a given URL, and `tempfile.gettempdir()`. -/
structure MediaEnv where
  msgId : String
  uploadStatus : Nat
  urlStatus : String → Nat
  urlBody : String → List Nat
  tmpdir : String

/-- Filesystem as an association list from paths to byte contents. -/
abbrev FileSystem := List (String × List Nat)

/-- Facade operation `sendImage(to_, path)`: build the placeholder message,
send it through `self._client.sendMessage(0, M)` to obtain the message id,
open the file at `path` (its bytes also give the `size` field), then issue
one multipart POST to the media endpoint carrying the `params` fields and
the file part.  A status other than 201 raises; otherwise return `True`. -/
def sendImage (env : MediaEnv) (fs : FileSystem) (to_ path : String) :
    Except Err PyVal × List Event :=
  let M := placeholderMessage to_
  let M_id := env.msgId
  match fs.lookup path with
  | none => (.error (.fileNotFound path), [.sendMessage 0 M])
  | some bytes =>
    let params : UploadParams :=
      { name := "media", oid := M_id, size := bytes.length,
        type := "image", ver := "1.0" }
    let events := [.sendMessage 0 M, .postContent mediaUploadUrl params bytes]
    if env.uploadStatus ≠ 201 then (.error .uploadFailed, events)
    else (.ok (.bool true), events)

/-- Temporary path construction of `sendImageWithURL`:
`'%s/pythonLine-%i.data' % (tempfile.gettempdir(), randint(0, 9))`.  The
random draw is a `Fin 10`, the range of `randint(0, 9)`. -/
def tempPath (tmpdir : String) (r : Fin 10) : String :=
  tmpdir ++ "/pythonLine-" ++ toString r.val ++ ".data"

/-- Facade operation `sendImageWithURL(to_, url)`: construct a temporary
path, issue a streamed GET of `url`; on status 200 copy the body to the
path and delegate to `sendImage`, re-raising any exception it raises
unchanged (`except Exception as e: raise e`) and otherwise falling through
(returning `None`); on any other status raise the download failure.
Returns the result, the event trace, and the final filesystem. -/
def sendImageWithURL (env : MediaEnv) (fs : FileSystem) (to_ url : String)
    (rand : Fin 10) : Except Err PyVal × List Event × FileSystem :=
  let path := tempPath env.tmpdir rand
  let ev := Event.httpGet url true
  if env.urlStatus url = 200 then
    let fs2 := (path, env.urlBody url) :: fs
    match sendImage env fs2 to_ path with
    | (.ok _, evs) => (.ok .none, ev :: evs, fs2)
    | (.error e, evs) => (.error e, ev :: evs, fs2)
  else
    (.error .downloadFailed, [ev], fs)

/-! Concrete environments and filesystems used by the witness theorems. -/

/-- Environment whose media endpoint answers 500. -/
def envUpload500 : MediaEnv := ⟨"mid-9", 500, fun _ => 200, fun _ => [], "/tmp"⟩

/-- Environment whose remote URL GET answers 404. -/
def envGet404 : MediaEnv := ⟨"mid-1", 201, fun _ => 404, fun _ => [7], "/tmp"⟩

/-- Environment where every step succeeds (GET 200, upload 201). -/
def envAllOk : MediaEnv := ⟨"mid-1", 201, fun _ => 200, fun _ => [7, 8], "/tmp"⟩

/-- Environment with a succeeding download and a failing (500) upload. -/
def envDownOkUpBad : MediaEnv := ⟨"mid-7", 500, fun _ => 200, fun _ => [9], "/tmp"⟩

/-- Response whose body is not well-formed JSON. -/
def respBad : UnderlyingResponse := ⟨200, [], "not json", [110, 111, 116]⟩

/-- Response whose body is the well-formed JSON array `[1, 2]`. -/
def respGood : UnderlyingResponse := ⟨200, [], "[1, 2]", [91, 49, 44, 32, 50, 93]⟩

/-! Theorems settling the claims. -/

/-- C1: `sendImage` returns `True` exactly when the media upload endpoint
answers HTTP 201; for every other status of the multipart POST it raises
the upload-failure error, and the trace ends at that POST — no further
request is issued. -/
theorem sendImage_success_iff_created :
    ∀ (env : MediaEnv) (fs : FileSystem) (to_ path : String) (bytes : List Nat),
    fs.lookup path = some bytes →
    (((sendImage env fs to_ path).1 = .ok (.bool true)) ↔ env.uploadStatus = 201) ∧
    (env.uploadStatus ≠ 201 →
      (sendImage env fs to_ path).1 = .error .uploadFailed ∧
      (sendImage env fs to_ path).2 =
        [.sendMessage 0 (placeholderMessage to_),
         .postContent mediaUploadUrl
           { name := "media", oid := env.msgId, size := bytes.length,
             type := "image", ver := "1.0" } bytes]) := by
  intro env fs to_ path bytes h
  by_cases hs : env.uploadStatus = 201 <;> simp [sendImage, h, hs]

/-- Witness for C1 at a concrete environment whose upload endpoint answers
500: the operation raises the upload failure. -/
theorem sendImage_success_iff_created_witness :
    (([("q", [5])] : FileSystem).lookup "q" = some [5]) ∧
    envUpload500.uploadStatus ≠ 201 ∧
    (sendImage envUpload500 [("q", [5])] "u" "q").1 = .error .uploadFailed :=
  ⟨rfl, by decide,
   ((sendImage_success_iff_created envUpload500 [("q", [5])] "u" "q" [5] rfl).2
     (by decide)).1⟩

/-- C2: when the initial streamed GET of `sendImageWithURL` does not answer
200 (in particular on every non-success status), the operation fails with
the download-failure error, the trace is exactly the one GET — so neither
the placeholder message nor the multipart upload is ever issued — and the
filesystem is untouched. -/
theorem sendImageWithURL_download_failure_stops :
    ∀ (env : MediaEnv) (fs : FileSystem) (to_ url : String) (rand : Fin 10),
    env.urlStatus url ≠ 200 →
    (sendImageWithURL env fs to_ url rand).1 = .error .downloadFailed ∧
    (sendImageWithURL env fs to_ url rand).2.1 = [.httpGet url true] ∧
    (sendImageWithURL env fs to_ url rand).2.2 = fs := by
  intro env fs to_ url rand h
  simp [sendImageWithURL, h]

/-- Witness for C2 at a concrete environment whose URL answers 404. -/
theorem sendImageWithURL_download_failure_stops_witness :
    envGet404.urlStatus "http://x/i.png" ≠ 200 ∧
    (sendImageWithURL envGet404 [] "u" "http://x/i.png" 3).1 = .error .downloadFailed ∧
    (sendImageWithURL envGet404 [] "u" "http://x/i.png" 3).2.1 =
      [.httpGet "http://x/i.png" true] :=
  ⟨by decide,
   (sendImageWithURL_download_failure_stops envGet404 [] "u" "http://x/i.png" 3
     (by decide)).1,
   (sendImageWithURL_download_failure_stops envGet404 [] "u" "http://x/i.png" 3
     (by decide)).2.1⟩

/-- C3: `sendImage` performs the three-step protocol in order: the
placeholder content message first, then exactly one multipart POST to the
media endpoint whose fields are `name`, `oid` — equal to the id the
placeholder step returned — `size` — the byte length of the file at
`path` — `type` and `ver`, together with the file part. -/
theorem sendImage_three_step_protocol :
    ∀ (env : MediaEnv) (fs : FileSystem) (to_ path : String) (bytes : List Nat),
    fs.lookup path = some bytes →
    (sendImage env fs to_ path).2 =
      [.sendMessage 0 (placeholderMessage to_),
       .postContent mediaUploadUrl
         { name := "media", oid := env.msgId, size := bytes.length,
           type := "image", ver := "1.0" } bytes] := by
  intro env fs to_ path bytes h
  simp only [sendImage, h]
  split <;> rfl

/-- Witness for C3 at a concrete environment and a three-byte file. -/
theorem sendImage_three_step_protocol_witness :
    (([("p", [1, 2, 3])] : FileSystem).lookup "p" = some [1, 2, 3]) ∧
    (sendImage envAllOk [("p", [1, 2, 3])] "u" "p").2 =
      [.sendMessage 0 (placeholderMessage "u"),
       .postContent mediaUploadUrl ⟨"media", "mid-1", 3, "image", "1.0"⟩ [1, 2, 3]] :=
  ⟨rfl, sendImage_three_step_protocol envAllOk [("p", [1, 2, 3])] "u" "p" [1, 2, 3] rfl⟩

/-- C4: an explicit per-call timeout is the one used for that `get`/`post`
call, a call without one uses the instance default, the instance is never
mutated by either method, and a later call without an explicit timeout
still uses the original default. -/
theorem transport_timeout_override_no_mutation :
    ∀ (c : RequestsHttpClient) (net : Network) (url : String)
    (h p d : List (String × String)) (s : Bool) (t : Timeout),
    c.get net url h p s (some t) = (⟨net.getResponse url h p s t⟩, c) ∧
    c.get net url h p s none = (⟨net.getResponse url h p s c.timeout⟩, c) ∧
    c.post net url h d (some t) = (⟨net.postResponse url h d t⟩, c) ∧
    c.post net url h d none = (⟨net.postResponse url h d c.timeout⟩, c) ∧
    ((c.get net url h p s (some t)).2.get net url h p s none).1
      = ⟨net.getResponse url h p s c.timeout⟩ ∧
    ((c.post net url h d (some t)).2.post net url h d none).1
      = ⟨net.postResponse url h d c.timeout⟩ :=
  fun _ _ _ _ _ _ _ _ => ⟨rfl, rfl, rfl, rfl, rfl, rfl⟩

/-- C5: the wrapper's `status_code`, `headers`, `text` and `content` equal
the underlying transfer's values with no transformation, and every
`get`/`post` call wraps exactly the response the network produced. -/
theorem response_accessors_passthrough :
    ∀ (u : UnderlyingResponse) (c : RequestsHttpClient) (net : Network)
    (url : String) (h p d : List (String × String)) (s : Bool) (t : Option Timeout),
    (RequestsHttpResponse.mk u).status_code = u.status_code ∧
    (RequestsHttpResponse.mk u).headers = u.headers ∧
    (RequestsHttpResponse.mk u).text = u.text ∧
    (RequestsHttpResponse.mk u).content = u.content ∧
    (c.get net url h p s t).1.response = net.getResponse url h p s (t.getD c.timeout) ∧
    (c.post net url h d t).1.response = net.postResponse url h d (t.getD c.timeout) := by
  intro u c net url h p d s t
  refine ⟨rfl, rfl, rfl, rfl, ?_, ?_⟩ <;> cases t <;> rfl

/-- C6: the wrapper's `json` accessor is exactly the parse of the body: a
malformed body yields the parse error, surfaced to the caller at access
time rather than swallowed, and a well-formed body yields the value an
independent parse of the body produces. -/
theorem response_json_surfaces_parse_result :
    ∀ (u : UnderlyingResponse),
    (RequestsHttpResponse.mk u).json = parseJson u.text ∧
    (∀ e, parseJson u.text = .error e → (RequestsHttpResponse.mk u).json = .error e) ∧
    (∀ v, parseJson u.text = .ok v → (RequestsHttpResponse.mk u).json = .ok v) :=
  fun _ => ⟨rfl, fun _ h => h, fun _ h => h⟩

/-- Witness for C6: a malformed body surfaces a parse error, and the body
`[1, 2]` parses to the array `[1, 2]`, both through the accessor. -/
theorem response_json_surfaces_parse_result_witness :
    parseJson respBad.text = .error "invalid literal" ∧
    (RequestsHttpResponse.mk respBad).json = .error "invalid literal" ∧
    parseJson respGood.text = .ok (.arr [.num 1, .num 2]) ∧
    (RequestsHttpResponse.mk respGood).json = .ok (.arr [.num 1, .num 2]) :=
  ⟨rfl, (response_json_surfaces_parse_result respBad).2.1 "invalid literal" rfl,
   rfl, (response_json_surfaces_parse_result respGood).2.2 (.arr [.num 1, .num 2]) rfl⟩

/-- C7: an error raised by the `sendImage` delegate inside
`sendImageWithURL` propagates unchanged — the very same error value — to
the caller of `sendImageWithURL` (the `except` clause re-raises the caught
exception). -/
theorem sendImageWithURL_propagates_delegate_error :
    ∀ (env : MediaEnv) (fs : FileSystem) (to_ url : String) (rand : Fin 10)
    (e : Err) (evs : List Event),
    env.urlStatus url = 200 →
    sendImage env ((tempPath env.tmpdir rand, env.urlBody url) :: fs) to_
      (tempPath env.tmpdir rand) = (.error e, evs) →
    (sendImageWithURL env fs to_ url rand).1 = .error e := by
  intro env fs to_ url rand e evs h hsi
  simp [sendImageWithURL, h, hsi]

/-- Witness for C7: with a succeeding download and a 500 upload, the
delegate's upload failure is the error `sendImageWithURL` raises. -/
theorem sendImageWithURL_propagates_delegate_error_witness :
    envDownOkUpBad.urlStatus "http://x" = 200 ∧
    sendImage envDownOkUpBad
      [(tempPath envDownOkUpBad.tmpdir 4, envDownOkUpBad.urlBody "http://x")] "u"
      (tempPath envDownOkUpBad.tmpdir 4) =
      (.error .uploadFailed,
       [.sendMessage 0 (placeholderMessage "u"),
        .postContent mediaUploadUrl ⟨"media", "mid-7", 1, "image", "1.0"⟩ [9]]) ∧
    (sendImageWithURL envDownOkUpBad [] "u" "http://x" 4).1 = .error .uploadFailed :=
  ⟨rfl, rfl,
   sendImageWithURL_propagates_delegate_error envDownOkUpBad [] "u" "http://x" 4
     .uploadFailed
     [.sendMessage 0 (placeholderMessage "u"),
      .postContent mediaUploadUrl ⟨"media", "mid-7", 1, "image", "1.0"⟩ [9]]
     rfl rfl⟩

/-- C8 counterexample: the claim that every two runs of the temporary-path
construction give distinct paths is false — two calls whose bounded random
draws (`randint(0, 9)`) both come out 3 construct the same path. -/
theorem tempPath_equal_draws_collide :
    ¬ (∀ (r1 r2 : Fin 10), tempPath "/tmp" r1 ≠ tempPath "/tmp" r2) :=
  fun h => h 3 3 rfl

/-- Helper for C8: the decimal representations of the ten possible draws
are pairwise distinct. -/
theorem digitRepr_inj :
    ∀ (r1 r2 : Fin 10), (toString r1.val).data = (toString r2.val).data → r1 = r2 := by
  decide

/-- C8 amended: the temporary paths of two `sendImageWithURL` runs are
distinct exactly when their random draws differ; the draw ranges over the
bounded range 0–9 (`Fin 10`), so two runs can draw the same value and
collide. -/
theorem tempPath_distinct_iff_draws_differ :
    ∀ (d : String) (r1 r2 : Fin 10), tempPath d r1 = tempPath d r2 ↔ r1 = r2 := by
  intro d r1 r2
  constructor
  · intro h
    have h2 := congrArg String.data h
    simp only [tempPath, String.data_append, List.append_assoc] at h2
    have h3 := List.append_cancel_left h2
    have h4 := List.append_cancel_left h3
    have h5 := List.append_cancel_right h4
    exact digitRepr_inj r1 r2 h5
  · rintro rfl
    rfl

/-- C9: evaluating any sequence of accessors (`status_code`, `headers`,
`text`, `content`, `json`, `iter_content`) leaves the response's observable
state exactly as constructed — no accessor mutates it. -/
theorem response_accessor_sequences_pure :
    ∀ (seq : List Accessor) (r : RequestsHttpResponse),
    (runAccessors seq r).2 = r := by
  intro seq r
  induction seq with
  | nil => rfl
  | cons a as_ ih => cases a <;> simp [runAccessors, runAccessor, ih]

/-- C10: when every step succeeds, `sendImageWithURL` returns `None` (the
function body falls through with no `return`) although its delegate
`sendImage` returns `True` on the very same upload, so success is only
observable as the absence of an error. -/
theorem sendImageWithURL_returns_none_on_success :
    ∀ (env : MediaEnv) (fs : FileSystem) (to_ url : String) (rand : Fin 10),
    env.urlStatus url = 200 → env.uploadStatus = 201 →
    (sendImageWithURL env fs to_ url rand).1 = .ok .none ∧
    (sendImage env ((tempPath env.tmpdir rand, env.urlBody url) :: fs) to_
      (tempPath env.tmpdir rand)).1 = .ok (.bool true) := by
  intro env fs to_ url rand hget hup
  have hl : List.lookup (tempPath env.tmpdir rand)
      ((tempPath env.tmpdir rand, env.urlBody url) :: fs) = some (env.urlBody url) := by
    simp [List.lookup]
  have hs : sendImage env ((tempPath env.tmpdir rand, env.urlBody url) :: fs) to_
      (tempPath env.tmpdir rand) =
      (.ok (.bool true),
       [.sendMessage 0 (placeholderMessage to_),
        .postContent mediaUploadUrl
          { name := "media", oid := env.msgId, size := (env.urlBody url).length,
            type := "image", ver := "1.0" } (env.urlBody url)]) := by
    simp [sendImage, hl, hup]
  refine ⟨?_, by rw [hs]⟩
  simp [sendImageWithURL, hget, hs]

/-- Witness for C10 at a fully succeeding concrete environment. -/
theorem sendImageWithURL_returns_none_on_success_witness :
    envAllOk.urlStatus "http://x" = 200 ∧ envAllOk.uploadStatus = 201 ∧
    (sendImageWithURL envAllOk [] "u" "http://x" 2).1 = .ok .none ∧
    (sendImage envAllOk [(tempPath envAllOk.tmpdir 2, envAllOk.urlBody "http://x")] "u"
      (tempPath envAllOk.tmpdir 2)).1 = .ok (.bool true) :=
  ⟨rfl, rfl,
   (sendImageWithURL_returns_none_on_success envAllOk [] "u" "http://x" 2 rfl rfl).1,
   (sendImageWithURL_returns_none_on_success envAllOk [] "u" "http://x" 2 rfl rfl).2⟩

end LineBot
